import Mathlib

/-!
# Verification of the iSED ESR analyzer communication handler

Shallow embedding of the frame-protocol engine found in `src/main.py`,
`src/clean.py` and `src/index.py` of the `ised-parser` repository.

Modelling conventions:
* a Python `bytes` value is a `List Nat` of byte values;
* a Python `str` is a Lean `String` (operated on through its character
  list, so that every definition reduces inside the kernel);
* a Python dict with string keys and string values is an association
  list `List (String × String)` in the key order of the source literal;
* Python exceptions are `Except String`; a `try/except` handler is an
  explicit `match` on the `Except` value;
* `datetime.now()` timestamps are outside the model; the act of stamping
  a session's end timestamp is recorded by a Boolean `ended` field;
* serial-port writes are accumulated into a list of written bytes, and
  the byte stream read by `read_until` is given as the list of chunks
  those reads return (an empty chunk models a read timeout).
-/

namespace ISed

/-- Protocol control byte values (`ProtocolChars` in `src/clean.py`,
module constants in `src/main.py` and `src/index.py`). -/
def ENQb : Nat := 0x05

/-- ACK byte (0x06). -/
def ACKb : Nat := 0x06

/-- NAK byte (0x15). -/
def NAKb : Nat := 0x15

/-- STX byte (0x02). -/
def STXb : Nat := 0x02

/-- ETX byte (0x03). -/
def ETXb : Nat := 0x03

/-- EOT byte (0x04). -/
def EOTb : Nat := 0x04

/-- CR byte (0x0D). -/
def CRb : Nat := 0x0D

/-- LF byte (0x0A). -/
def LFb : Nat := 0x0A

/-- Python `bytes.find(b)` for a single byte: index of the first
occurrence, as an `Option`. -/
def pyFindIdx (b : Nat) : List Nat → Option Nat
  | [] => none
  | a :: l => if a = b then some 0 else (pyFindIdx b l).map (· + 1)

/-- Python `bytes.find(b)`: first index of `b`, or `-1` when absent. -/
def pyFindInt (l : List Nat) (b : Nat) : Int :=
  match pyFindIdx b l with
  | some i => (i : Int)
  | none => -1

/-- Python slice `l[a:b]` with Python's index normalisation: negative
indices count from the end, then both bounds are clamped to `[0, len]`. -/
def pySliceInt (l : List Nat) (a b : Int) : List Nat :=
  let n : Int := (l.length : Int)
  let lo := (if a < 0 then max (a + n) 0 else min a n).toNat
  let hi := (if b < 0 then max (b + n) 0 else min b n).toNat
  (l.drop lo).take (hi - lo)

/-- `fields[i] if len(fields) > i else ''` — the guarded field access
used throughout the record decoders. -/
def fieldOr (fields : List String) (i : Nat) : String :=
  (fields.get? i).getD ""

/-- `parts[i] if len(parts) > i else ''` for caret-split sub-fields. -/
def partOr (parts : List String) (i : Nat) : String :=
  (parts.get? i).getD ""

/-- Python `str.split(sep)` on a character list (always non-empty result,
`"".split(sep) == ['']`). -/
def splitChar (sep : Char) : List Char → List (List Char)
  | [] => [[]]
  | c :: rest =>
    let r := splitChar sep rest
    if c = sep then [] :: r
    else
      match r with
      | h :: t => (c :: h) :: t
      | [] => [[c]]

/-- Python `str.split(sep)` on a `String`. -/
def pySplit (s : String) (sep : Char) : List String :=
  (splitChar sep s.data).map String.mk

/-- Python `str.rstrip('\r')`: drop every trailing carriage return. -/
def rstripCR (l : List Char) : List Char :=
  (l.reverse.dropWhile (· = '\r')).reverse

/-- `data_message[:-1] if data_message.endswith('\r')` in
`src/main.py process_frame`: drop exactly one trailing CR. -/
def stripOneCR (l : List Char) : List Char :=
  match l.reverse with
  | '\r' :: t => t.reverse
  | _ => l

/-- Python `value.startswith('-')`. -/
def strStartsWithDash (s : String) : Bool :=
  match s.data with
  | '-' :: _ => true
  | _ => false

/-- Python `dict.get(key)` on an association list (first binding wins). -/
def dictGet (d : List (String × String)) (k : String) : Option String :=
  (d.find? (fun kv => decide (kv.1 = k))).map (·.2)

/-- Python `str.upper()` on a single byte value (ASCII letters only,
which is all that can appear after a successful `decode('ascii')`). -/
def pyUpperByte (b : Nat) : Nat :=
  if 97 ≤ b ∧ b ≤ 122 then b - 32 else b

/-- One uppercase hexadecimal digit, as a byte value. -/
def hexDigit (n : Nat) : Nat :=
  if n < 10 then 48 + n else 55 + n

/-- `f"{n:02X}"` for `n < 256`: two uppercase hex digits as byte values. -/
def toHex2 (n : Nat) : List Nat := [hexDigit (n / 16), hexDigit (n % 16)]

/-- Python `bytes.decode('ascii')`: succeeds exactly when every byte is
below 128, raising `UnicodeDecodeError` otherwise. -/
def pyDecodeAscii (bs : List Nat) : Except String (List Nat) :=
  if bs.all (· < 128) then Except.ok bs else Except.error "UnicodeDecodeError"

/-!
## Checksum validator (`verify_checksum` in `src/main.py`,
`iSEDHandler._verify_checksum` in `src/clean.py`; identical logic)
-/

/-- The body of the `try:` block of `verify_checksum`: find STX and ETX
(returning `False` when either is missing), decode the two bytes after
ETX as ASCII (which may raise), sum the bytes from the byte after STX
through ETX inclusive modulo 256, render as two uppercase hex digits and
compare case-insensitively. -/
def verify_checksum_body (frame : List Nat) : Except String Bool :=
  match pyFindIdx STXb frame, pyFindIdx ETXb frame with
  | some stx, some etx =>
    match pyDecodeAscii ((frame.drop (etx + 1)).take 2) with
    | Except.error e => Except.error e
    | Except.ok received =>
      let data_for_checksum := (frame.drop (stx + 1)).take (etx + 1 - (stx + 1))
      let calculated := toHex2 (data_for_checksum.sum % 256)
      Except.ok (received.map pyUpperByte == calculated.map pyUpperByte)
  | _, _ => Except.ok false

/-- `verify_checksum`: the `try/except` wrapper returning `False` on any
exception. -/
def verify_checksum (frame : List Nat) : Bool :=
  match verify_checksum_body frame with
  | Except.ok b => b
  | Except.error _ => false

/-- Modelled from the spec's words (§4.2) for comparison with the code:
“checksum = (sum of byte values from the byte immediately after STX,
through and including ETX) mod 256, rendered as two uppercase hexadecimal
digits. Compares against the two ASCII characters immediately following
ETX in the frame, case-insensitively.” -/
def specChecksumMatches (frame : List Nat) : Bool :=
  match pyFindIdx STXb frame, pyFindIdx ETXb frame with
  | some i, some j =>
    let summed := ((frame.drop (i + 1)).take (j + 1 - (i + 1))).sum % 256
    let rendered := toHex2 summed
    let declared := (frame.drop (j + 1)).take 2
    declared.map pyUpperByte == rendered.map pyUpperByte
  | _, _ => false

lemma hexDigit_lt_128 {k : Nat} (h : k < 16) : hexDigit k < 128 := by
  unfold hexDigit
  split <;> omega

lemma pyUpperByte_lt_128 {b : Nat} (h : b < 128) : pyUpperByte b < 128 := by
  unfold pyUpperByte
  split <;> omega

lemma pyUpperByte_of_ge {b : Nat} (h : 128 ≤ b) : pyUpperByte b = b := by
  unfold pyUpperByte
  split <;> omega

/-- If some byte of `l` is at least 128, the case-folded comparison with a
rendered two-digit hex checksum is false. -/
lemma map_upper_ne_hex {l : List Nat} {n : Nat} (hn : n < 256)
    (hx : ∃ x ∈ l, 128 ≤ x) :
    (l.map pyUpperByte == (toHex2 n).map pyUpperByte) = false := by
  rw [beq_eq_false_iff_ne]
  intro heq
  obtain ⟨x, hxl, hx128⟩ := hx
  have hmem : pyUpperByte x ∈ (toHex2 n).map pyUpperByte := by
    rw [← heq]
    exact List.mem_map_of_mem _ hxl
  obtain ⟨y, hy, hyx⟩ := List.mem_map.mp hmem
  have hylt : y < 128 := by
    have h16a : n / 16 < 16 := by omega
    have h16b : n % 16 < 16 := Nat.mod_lt _ (by omega)
    simp only [toHex2, List.mem_cons, List.not_mem_nil, or_false] at hy
    rcases hy with rfl | rfl
    · exact hexDigit_lt_128 h16a
    · exact hexDigit_lt_128 h16b
  have : pyUpperByte y < 128 := pyUpperByte_lt_128 hylt
  rw [hyx, pyUpperByte_of_ge hx128] at this
  omega

/-- The code's validator agrees with the spec-modelled comparison on every
frame: the only structural difference, the explicit ASCII decode of the
declared checksum characters, cannot change the verdict because a
non-ASCII byte can never equal an uppercase hex digit. -/
lemma verify_checksum_eq_spec (frame : List Nat) :
    verify_checksum frame = specChecksumMatches frame := by
  unfold verify_checksum verify_checksum_body specChecksumMatches
  cases hstx : pyFindIdx STXb frame with
  | none => rfl
  | some i =>
    cases hetx : pyFindIdx ETXb frame with
    | none => rfl
    | some j =>
      dsimp only
      by_cases hall : ((frame.drop (j + 1)).take 2).all (· < 128)
      · simp [pyDecodeAscii, hall]
      · have hx : ∃ x ∈ (frame.drop (j + 1)).take 2, 128 ≤ x := by
          rw [List.all_eq_true] at hall
          push_neg at hall
          obtain ⟨x, hx1, hx2⟩ := hall
          refine ⟨x, hx1, ?_⟩
          simp at hx2
          omega
        have hfalse : ((frame.drop (j + 1)).take 2).all (· < 128) = false := by
          rwa [Bool.not_eq_true] at hall
        have herr : pyDecodeAscii ((frame.drop (j + 1)).take 2) =
            Except.error "UnicodeDecodeError" := by
          simp [pyDecodeAscii, hfalse]
        rw [herr]
        rw [map_upper_ne_hex (Nat.mod_lt _ (by omega)) hx]

/-- **C1.** For every frame byte string containing an STX byte and an ETX
byte, the checksum validator (`verify_checksum` of `src/main.py`, equal in
logic to `iSEDHandler._verify_checksum` of `src/clean.py`) reports the
frame valid iff the sum of the byte values from the byte immediately after
STX through and including ETX, taken modulo 256 and rendered as two
uppercase hexadecimal digits, matches — compared case-insensitively — the
two characters immediately following ETX in the frame. -/
theorem checksum_valid_iff_spec (frame : List Nat)
    (_hstx : STXb ∈ frame) (_hetx : ETXb ∈ frame) :
    verify_checksum frame = true ↔ specChecksumMatches frame = true := by
  rw [verify_checksum_eq_spec]

/-- Witness for `checksum_valid_iff_spec` at a concrete valid frame
`STX '1' 'P' '|' '1' CR ETX '3' 'E' CR LF`. -/
theorem checksum_valid_iff_spec_witness :
    STXb ∈ [2, 49, 80, 124, 49, 13, 3, 51, 69, 13, 10] ∧
    ETXb ∈ [2, 49, 80, 124, 49, 13, 3, 51, 69, 13, 10] ∧
    (verify_checksum [2, 49, 80, 124, 49, 13, 3, 51, 69, 13, 10] = true ↔
      specChecksumMatches [2, 49, 80, 124, 49, 13, 3, 51, 69, 13, 10] = true) :=
  ⟨by decide, by decide,
    checksum_valid_iff_spec [2, 49, 80, 124, 49, 13, 3, 51, 69, 13, 10]
      (by decide) (by decide)⟩

lemma pyFindIdx_eq_none_of_not_mem {b : Nat} :
    ∀ {l : List Nat}, b ∉ l → pyFindIdx b l = none := by
  intro l
  induction l with
  | nil => intro _; rfl
  | cons a t ih =>
    intro h
    have ha : ¬ a = b := by
      intro hab
      exact h (hab ▸ List.mem_cons_self a t)
    have ht : b ∉ t := fun hbt => h (List.mem_cons_of_mem a hbt)
    simp [pyFindIdx, ha, ih ht]

/-- **C9.** The checksum validator is total: on every byte string it
returns a Boolean. A frame missing STX or ETX is reported invalid, and
whenever the body of the validator raises (e.g. non-ASCII bytes where the
checksum characters ought to be), the `except` handler still returns
`false` instead of propagating the error. -/
theorem checksum_total_malformed_invalid (frame : List Nat) :
    (STXb ∉ frame ∨ ETXb ∉ frame → verify_checksum frame = false) ∧
    (∀ e, verify_checksum_body frame = Except.error e →
      verify_checksum frame = false) := by
  constructor
  · intro h
    unfold verify_checksum verify_checksum_body
    rcases h with h | h
    · rw [pyFindIdx_eq_none_of_not_mem h]
    · rw [pyFindIdx_eq_none_of_not_mem h]
      cases pyFindIdx STXb frame <;> rfl
  · intro e he
    unfold verify_checksum
    rw [he]

/-- Witness for `checksum_total_malformed_invalid`: a frame with no STX is
invalid, and a frame whose checksum position holds the non-ASCII byte 200
makes the body raise yet the validator still answers `false`. -/
theorem checksum_total_malformed_invalid_witness :
    verify_checksum [0, 1] = false ∧ verify_checksum [2, 3, 200] = false :=
  ⟨(checksum_total_malformed_invalid [0, 1]).1 (Or.inl (by decide)),
    (checksum_total_malformed_invalid [2, 3, 200]).2 "UnicodeDecodeError" (by rfl)⟩

/-!
## Result interpreter (`interpret_esr_result` in `src/main.py`,
`iSEDHandler._interpret_result` in `src/clean.py`)

The two implementations share the same branch structure and differ only
in the display strings of their error-code tables.  The normal numeric
branch of the source formats the parsed float into a message string; the
numeric formatting is outside the model, so interpretations are an
inductive discriminated outcome that carries the raw strings instead.
-/

/-- ASCII decimal digit test. -/
def isDigit (c : Char) : Bool := '0' ≤ c ∧ c ≤ '9'

/-- Characters stripped by Python `float(str)` before parsing. -/
def isPySpace (c : Char) : Bool :=
  c = ' ' ∨ c = '\t' ∨ c = '\n' ∨ c = '\r' ∨ c = '\x0b' ∨ c = '\x0c'

/-- Greedily consume `(digit | '_' digit)*`, the continuation of a digit
run in Python's numeric grammar (single underscores only between digits). -/
def digitsTail : List Char → List Char
  | [] => []
  | c :: rest =>
    if isDigit c then digitsTail rest
    else if c = '_' then
      match rest with
      | d :: rest2 => if isDigit d then digitsTail rest2 else c :: rest
      | [] => c :: rest
    else c :: rest

/-- The whole list is one valid digit run (`digit (digit | '_' digit)*`). -/
def digitsAll (cs : List Char) : Bool :=
  match cs with
  | c :: rest => isDigit c && (digitsTail rest).isEmpty
  | [] => false

/-- Consume a leading digit run; returns whether at least one digit was
consumed together with the remainder. -/
def chompRun (cs : List Char) : Bool × List Char :=
  match cs with
  | c :: rest => if isDigit c then (true, digitsTail rest) else (false, c :: rest)
  | [] => (false, [])

/-- Consume `digits [. digits]` requiring at least one digit overall;
`none` when no valid mantissa is present. -/
def mantissaRest (cs : List Char) : Option (List Char) :=
  let r1 := chompRun cs
  match r1.2 with
  | '.' :: r2 =>
    let r3 := chompRun r2
    if r1.1 || r3.1 then some r3.2 else none
  | _ => if r1.1 then some r1.2 else none

/-- The whole list is a valid digit run after an optional sign. -/
def signedDigitsAll : List Char → Bool
  | '+' :: r => digitsAll r
  | '-' :: r => digitsAll r
  | r => digitsAll r

/-- A valid (possibly empty) exponent part: `(e | E) [+|-] digits` or
nothing at all. -/
def expOk : List Char → Bool
  | [] => true
  | 'e' :: rest => signedDigitsAll rest
  | 'E' :: rest => signedDigitsAll rest
  | _ => false

/-- ASCII lower-casing of one character. -/
def charLower (c : Char) : Char :=
  if 'A' ≤ c ∧ c ≤ 'Z' then Char.ofNat (c.toNat + 32) else c

/-- Case-insensitive `inf` / `infinity` / `nan`. -/
def infNanOk (cs : List Char) : Bool :=
  let l := cs.map charLower
  l = "inf".data ∨ l = "infinity".data ∨ l = "nan".data

/-- A valid unsigned float literal: mantissa plus exponent, or an
infinity/nan keyword. -/
def unsignedFloatOk (cs : List Char) : Bool :=
  match mantissaRest cs with
  | some rest => expOk rest
  | none => infNanOk cs

/-- A valid float literal after stripping whitespace: optional sign then
an unsigned literal. -/
def signedFloatOk : List Char → Bool
  | '+' :: r => unsignedFloatOk r
  | '-' :: r => unsignedFloatOk r
  | r => unsignedFloatOk r

/-- Model of the Python built-in `float(str)` acceptance test: strip
whitespace, then an optionally signed decimal literal (underscores
between digits allowed) or `inf`/`infinity`/`nan`. -/
def pyFloatParses (s : String) : Bool :=
  signedFloatOk (((s.data.dropWhile isPySpace).reverse.dropWhile isPySpace).reverse)

/-- The discriminated outcome of interpreting a raw ESR value together
with the abnormal flag.  The constructors are in bijection with the
return sites of `interpret_esr_result` (`src/main.py`) and
`_interpret_result` (`src/clean.py`); `normal` carries the raw value
whose float rendering is outside the model. -/
inductive ESRInterp where
  | errorCode (name : String)
  | unknownError (raw : String)
  | belowRange
  | aboveRange
  | normal (raw : String)
  | invalidFormat (raw : String)
deriving DecidableEq, Repr

/-- The `error_codes` table of `interpret_esr_result` in `src/main.py`. -/
def error_codes : List (String × String) :=
  [("-1", "ESR_ERR_NOFLOW"), ("-2", "ESR_ERR_NOSPIKE"), ("-3", "ESR_ERR_REVERSE"),
   ("-4", "ESR_ERR_NOPOINTS"), ("-5", "ESR_ERR_TOODARK"), ("-7", "ESR_ERR_TOOCLEAR"),
   ("-8", "ESR_ERR_WITHDRAWAL"), ("-9", "ESR_ERR_FLOW_IN"), ("-10", "ESR_ERR_FLOW_OUT"),
   ("-11", "ESR_ERR_ACQUISITION"), ("-12", "ESR_ERR_TRIGGERDELAY")]

/-- The module-level `ESR_ERROR_CODES` table of `src/clean.py`. -/
def ESR_ERROR_CODES : List (String × String) :=
  [("-1", "No flow detected"), ("-2", "No spike detected"),
   ("-3", "Reverse flow detected"), ("-4", "Insufficient data points"),
   ("-5", "Sample too dark"), ("-7", "Sample too clear"),
   ("-8", "Withdrawal error"), ("-9", "Flow in error"),
   ("-10", "Flow out error"), ("-11", "Acquisition error"),
   ("-12", "Trigger delay error")]

/-- `interpret_esr_result` of `src/main.py`.  The outer `try` of the
source can never fire: every operation before the inner `try` is total,
and the inner `try` around `float` is the `pyFloatParses` test here. -/
def interpret_esr_result (result_value abnormal_flag : String) : ESRInterp :=
  if strStartsWithDash result_value then
    match dictGet error_codes result_value with
    | some name => ESRInterp.errorCode name
    | none => ESRInterp.unknownError result_value
  else if abnormal_flag = "<" then ESRInterp.belowRange
  else if abnormal_flag = ">" then ESRInterp.aboveRange
  else if pyFloatParses result_value then ESRInterp.normal result_value
  else ESRInterp.invalidFormat result_value

/-- `iSEDHandler._interpret_result` of `src/clean.py`: same branch
structure over the descriptive `ESR_ERROR_CODES` table. -/
def clean_interpret_result (value abnormal_flag : String) : ESRInterp :=
  if strStartsWithDash value then
    match dictGet ESR_ERROR_CODES value with
    | some name => ESRInterp.errorCode name
    | none => ESRInterp.unknownError value
  else if abnormal_flag = "<" then ESRInterp.belowRange
  else if abnormal_flag = ">" then ESRInterp.aboveRange
  else if pyFloatParses value then ESRInterp.normal value
  else ESRInterp.invalidFormat value

/-- **C5.** The result interpreter is total (it always returns one of the
discriminated outcomes) and follows the claimed case analysis: a value
starting with `-` that is one of the eleven tabulated codes yields the
named failure condition — independently of the abnormal flag, so `"-5"`
always yields the sample-too-dark condition `ESR_ERR_TOODARK`; any other
value starting with `-` yields the unknown-error outcome carrying the raw
code; otherwise flag `<` yields below-range and `>` above-range; otherwise
a value accepted by the decimal parser yields the normal numeric outcome
and anything else the invalid-format outcome carrying the raw string. -/
theorem interpret_result_cases (v f : String) :
    (strStartsWithDash v = true → ∀ name, dictGet error_codes v = some name →
      interpret_esr_result v f = ESRInterp.errorCode name) ∧
    (strStartsWithDash v = true → dictGet error_codes v = none →
      interpret_esr_result v f = ESRInterp.unknownError v) ∧
    (strStartsWithDash v = false → f = "<" →
      interpret_esr_result v f = ESRInterp.belowRange) ∧
    (strStartsWithDash v = false → ¬ f = "<" → f = ">" →
      interpret_esr_result v f = ESRInterp.aboveRange) ∧
    (strStartsWithDash v = false → ¬ f = "<" → ¬ f = ">" →
      pyFloatParses v = true → interpret_esr_result v f = ESRInterp.normal v) ∧
    (strStartsWithDash v = false → ¬ f = "<" → ¬ f = ">" →
      pyFloatParses v = false →
      interpret_esr_result v f = ESRInterp.invalidFormat v) ∧
    interpret_esr_result "-5" f = ESRInterp.errorCode "ESR_ERR_TOODARK" := by
  refine ⟨?_, ?_, ?_, ?_, ?_, ?_, ?_⟩
  · intro h name hname
    simp [interpret_esr_result, h, hname]
  · intro h hname
    simp [interpret_esr_result, h, hname]
  · intro h hf
    simp [interpret_esr_result, h, hf]
  · intro h hf1 hf2
    simp [interpret_esr_result, h, hf1, hf2]
  · intro h hf1 hf2 hp
    simp [interpret_esr_result, h, hf1, hf2, hp]
  · intro h hf1 hf2 hp
    simp [interpret_esr_result, h, hf1, hf2, hp]
  · have h1 : strStartsWithDash "-5" = true := rfl
    have h2 : dictGet error_codes "-5" = some "ESR_ERR_TOODARK" := by decide
    simp [interpret_esr_result, h1, h2]

/-- Witness for `interpret_result_cases`, exercising every branch at
concrete inputs. -/
theorem interpret_result_cases_witness :
    interpret_esr_result "-5" ">" = ESRInterp.errorCode "ESR_ERR_TOODARK" ∧
    interpret_esr_result "-99" "" = ESRInterp.unknownError "-99" ∧
    interpret_esr_result "120" "<" = ESRInterp.belowRange ∧
    interpret_esr_result "131" ">" = ESRInterp.aboveRange ∧
    interpret_esr_result "12.5" "" = ESRInterp.normal "12.5" ∧
    interpret_esr_result "N/A" "" = ESRInterp.invalidFormat "N/A" :=
  ⟨(interpret_result_cases "-5" ">").2.2.2.2.2.2,
    (interpret_result_cases "-99" "").2.1 (by decide) (by decide),
    (interpret_result_cases "120" "<").2.2.1 (by decide) rfl,
    (interpret_result_cases "131" ">").2.2.2.1 (by decide) (by decide) rfl,
    (interpret_result_cases "12.5" "").2.2.2.2.1 (by decide) (by decide)
      (by decide) (by decide),
    (interpret_result_cases "N/A" "").2.2.2.2.2.1 (by decide) (by decide)
      (by decide) (by decide)⟩

/-!
## Entities and session of `src/clean.py` (`iSEDHandler`)
-/

/-- The header dict built by `iSEDHandler._process_header`. -/
structure CHeader where
  manufacturer : String
  product : String
  software_version : String
  instrument_id : String
  message_datetime : String
  processing_id : String
  version_number : String
deriving DecidableEq, Repr

/-- The patient dict built by `iSEDHandler._process_patient`. -/
structure CPatient where
  sequence : String
  patient_id : String
  patient_name : String
  birthdate : String
  sex : String
  attending_physician : String
deriving DecidableEq, Repr

/-- The order dict built by `iSEDHandler._process_order`. -/
structure COrder where
  sequence : String
  sample_id : String
  rotor_location : String
  test_id : String
  report_type : String
deriving DecidableEq, Repr

/-- The result dict built by `iSEDHandler._process_result` (without the
wall-clock `timestamp`, which is outside the model). -/
structure CResult where
  sequence : String
  test_id : String
  value : String
  units : String
  abnormal_flag : String
  status : String
  test_start : String
  test_complete : String
  instrument_id : String
  interpretation : ESRInterp
deriving DecidableEq, Repr

/-- `current_session` of `iSEDHandler`: empty header dict modelled as
`none`, entity lists in arrival order.  The `session_start`/`session_id`
timestamps are outside the model; `ended` records whether
`session_end` has been stamped by `_finalize_session`. -/
structure Session where
  header : Option CHeader
  patients : List CPatient
  orders : List COrder
  results : List CResult
  ended : Bool
deriving DecidableEq, Repr

/-- `iSEDHandler._init_session`. -/
def initSession : Session :=
  { header := none, patients := [], orders := [], results := [], ended := false }

/-- `iSEDHandler._process_header` on the pipe-split field list. -/
def clean_process_header (fields : List String) : CHeader :=
  let sender_parts := if fields.length > 4 then pySplit (fieldOr fields 4) '^' else []
  { manufacturer := (sender_parts.get? 0).getD "Unknown"
    product := (sender_parts.get? 1).getD "Unknown"
    software_version := (sender_parts.get? 2).getD "Unknown"
    instrument_id := (sender_parts.get? 3).getD "Unknown"
    message_datetime := fieldOr fields 13
    processing_id := fieldOr fields 11
    version_number := fieldOr fields 12 }

/-- `iSEDHandler._process_patient` on the pipe-split field list. -/
def clean_process_patient (fields : List String) : CPatient :=
  { sequence := fieldOr fields 1
    patient_id := fieldOr fields 3
    patient_name := fieldOr fields 5
    birthdate := fieldOr fields 7
    sex := fieldOr fields 8
    attending_physician := fieldOr fields 13 }

/-- `iSEDHandler._process_order` on the pipe-split field list. -/
def clean_process_order (fields : List String) : COrder :=
  let sample_parts := if fields.length > 2 then pySplit (fieldOr fields 2) '^' else []
  { sequence := fieldOr fields 1
    sample_id := partOr sample_parts 0
    rotor_location := partOr sample_parts 1
    test_id := fieldOr fields 4
    report_type := fieldOr fields 25 }

/-- `iSEDHandler._process_result` on the pipe-split field list.  The
source guards every stored field with a length check but passes the raw
`fields[3]` and `fields[6]` to `_interpret_result`, so a record with
fewer than 7 fields raises `IndexError` (propagated to the enclosing
`try` in `_process_frame`). -/
def clean_process_result (fields : List String) : Except String CResult :=
  match fields.get? 3, fields.get? 6 with
  | some v3, some v6 =>
    Except.ok
      { sequence := fieldOr fields 1
        test_id := fieldOr fields 2
        value := fieldOr fields 3
        units := fieldOr fields 4
        abnormal_flag := fieldOr fields 6
        status := fieldOr fields 8
        test_start := fieldOr fields 11
        test_complete := fieldOr fields 12
        instrument_id := fieldOr fields 13
        interpretation := clean_interpret_result v3 v6 }
  | _, _ => Except.error "IndexError"

/-- `iSEDHandler._process_record`: dispatch on the leading tag character.
The terminator record `L` only logs; unknown tags are logged and
skipped.  An exception from `_process_result` propagates. -/
def clean_process_record (record : String) (s : Session) : Except String Session :=
  match record.data with
  | [] => Except.ok s
  | t :: _ =>
    let fields := pySplit record '|'
    if t = 'H' then Except.ok { s with header := some (clean_process_header fields) }
    else if t = 'P' then
      Except.ok { s with patients := s.patients ++ [clean_process_patient fields] }
    else if t = 'O' then
      Except.ok { s with orders := s.orders ++ [clean_process_order fields] }
    else if t = 'R' then
      match clean_process_result fields with
      | Except.ok r => Except.ok { s with results := s.results ++ [r] }
      | Except.error e => Except.error e
    else Except.ok s

/-- The record loop of `iSEDHandler._process_frame`: mutations made
before an exception persist; the exception aborts the loop and is caught
by the surrounding `try`, which reports failure. -/
def clean_records_loop : List String → Session → Bool × Session
  | [], s => (true, s)
  | r :: rs, s =>
    match clean_process_record r s with
    | Except.ok s' => clean_records_loop rs s'
    | Except.error _ => (false, s)

/-- `iSEDHandler._process_frame`: verify the checksum, read the frame
number byte (`frame_data[1]`), decode the data span with
`errors='ignore'`, strip trailing CRs, split into non-empty records and
process each.  Returns the success flag that decides ACK versus NAK. -/
def clean_process_frame (frame : List Nat) (s : Session) : Bool × Session :=
  if verify_checksum frame then
    match frame.get? 1 with
    | none => (false, s)
    | some _ =>
      let stx := pyFindInt frame STXb
      let etx := pyFindInt frame ETXb
      let data_chars := ((pySliceInt frame (stx + 2) etx).filter (· < 128)).map Char.ofNat
      let data_section := rstripCR data_chars
      let records := ((splitChar '\r' data_section).filter (fun l => !l.isEmpty)).map String.mk
      clean_records_loop records s
  else (false, s)

/-- `iSEDHandler._finalize_session`: stamp the end timestamp on the
session that is handed off. -/
def finalizeSession (s : Session) : Session := { s with ended := true }

/-- The frame loop of `iSEDHandler._handle_transmission`.  Input is the
list of chunks returned by successive `read_until(LF)` calls; an empty
chunk is a read timeout.  Output: bytes written to the port, sessions
handed off by `_finalize_session`, and the open session left in
`self.current_session`. -/
def clean_loop : List (List Nat) → Session → List Nat → List Session →
    List Nat × List Session × Session
  | [], s, w, fin => (w, fin, s)
  | c :: rest, s, w, fin =>
    match c with
    | [] => (w, fin, s)
    | b :: _ =>
      if b = EOTb then (w ++ [ACKb], fin ++ [finalizeSession s], initSession)
      else if b = STXb then
        let r := clean_process_frame c s
        clean_loop rest r.2 (w ++ [if r.1 then ACKb else NAKb]) fin
      else clean_loop rest s w fin

/-- `iSEDHandler._handle_transmission`: ACK the ENQ, then run the frame
loop on the incoming chunks. -/
def clean_handle_transmission (chunks : List (List Nat)) (s : Session) :
    List Nat × List Session × Session :=
  clean_loop chunks s [ACKb] []

/-- `self.max_retries = 6  # per specification` from
`iSEDHandler.__init__`.  No other line of the source reads this
attribute. -/
def max_retries : Nat := 6

/-!
## Session summary of `src/clean.py` (`_create_session_summary`)
Only the per-result rows are modelled; the `session_info` block is
timestamps and header echo, and the `statistics` block is list lengths.
-/

/-- One entry of the `results` list of the summary built by
`iSEDHandler._create_session_summary`. -/
structure SummaryRow where
  test_number : Nat
  patient_name : String
  patient_id : String
  sample_id : String
  esr_value : String
  units : String
  interpretation : ESRInterp
  test_completed : String
  instrument_id : String
deriving DecidableEq, Repr

/-- The summary row for result `r` at position `i` (0-based as in
`enumerate`): join against the first patient and the first order whose
`sequence` equals the result's, with `'N/A'` when absent. -/
def mkSummaryRow (s : Session) (i : Nat) (r : CResult) : SummaryRow :=
  let patient := s.patients.find? (fun p => decide (p.sequence = r.sequence))
  let order := s.orders.find? (fun o => decide (o.sequence = r.sequence))
  { test_number := i + 1
    patient_name := (patient.map (·.patient_name)).getD "N/A"
    patient_id := (patient.map (·.patient_id)).getD "N/A"
    sample_id := (order.map (·.sample_id)).getD "N/A"
    esr_value := r.value
    units := r.units
    interpretation := r.interpretation
    test_completed := r.test_complete
    instrument_id := r.instrument_id }

/-- The `for i, result in enumerate(...)` loop of
`_create_session_summary`, carrying the running index. -/
def summaryRowsFrom (s : Session) : Nat → List CResult → List SummaryRow
  | _, [] => []
  | i, r :: rs => mkSummaryRow s i r :: summaryRowsFrom s (i + 1) rs

/-- The `results` list of the session summary. -/
def clean_create_session_summary (s : Session) : List SummaryRow :=
  summaryRowsFrom s 0 s.results

lemma summaryRowsFrom_get? (s : Session) :
    ∀ (rs : List CResult) (k i : Nat),
      (summaryRowsFrom s k rs).get? i =
        (rs.get? i).map (fun r => mkSummaryRow s (k + i) r) := by
  intro rs
  induction rs with
  | nil => intro k i; simp [summaryRowsFrom]
  | cons r rs ih =>
    intro k i
    cases i with
    | zero => simp [summaryRowsFrom]
    | succ n =>
      simp only [summaryRowsFrom, List.get?]
      rw [ih (k + 1) n, show k + 1 + n = k + (n + 1) from by omega]

/-- **C6.** At finalization, the per-result summary row at index `i`
pairs the `i`-th Result with the first Patient and the first Order whose
sequence number equals the Result's; when no matching patient or order
exists the corresponding fields carry the `"N/A"` placeholder, and the
summary is built totally (no failure). -/
theorem session_summary_join (s : Session) (i : Nat) (r : CResult)
    (h : s.results.get? i = some r) :
    ∃ row, (clean_create_session_summary s).get? i = some row ∧
      row.test_number = i + 1 ∧
      (∀ p, s.patients.find? (fun p => decide (p.sequence = r.sequence)) = some p →
        row.patient_name = p.patient_name ∧ row.patient_id = p.patient_id) ∧
      ((∀ p ∈ s.patients, ¬ p.sequence = r.sequence) →
        row.patient_name = "N/A" ∧ row.patient_id = "N/A") ∧
      (∀ o, s.orders.find? (fun o => decide (o.sequence = r.sequence)) = some o →
        row.sample_id = o.sample_id) ∧
      ((∀ o ∈ s.orders, ¬ o.sequence = r.sequence) → row.sample_id = "N/A") := by
  refine ⟨mkSummaryRow s i r, ?_, rfl, ?_, ?_, ?_, ?_⟩
  · rw [clean_create_session_summary, summaryRowsFrom_get? s s.results 0 i, h]
    simp
  · intro p hp
    constructor <;> simp [mkSummaryRow, hp]
  · intro hnone
    have hfind : s.patients.find? (fun p => decide (p.sequence = r.sequence)) = none := by
      apply List.find?_eq_none.mpr
      intro p hp
      simp [hnone p hp]
    constructor <;> simp [mkSummaryRow, hfind]
  · intro o ho
    simp [mkSummaryRow, ho]
  · intro hnone
    have hfind : s.orders.find? (fun o => decide (o.sequence = r.sequence)) = none := by
      apply List.find?_eq_none.mpr
      intro o ho
      simp [hnone o ho]
    simp [mkSummaryRow, hfind]

/-- A concrete result used to exercise `session_summary_join`. -/
def witResult : CResult :=
  { sequence := "1", test_id := "^^^ESR", value := "12",
    units := "mm/h", abnormal_flag := "", status := "",
    test_start := "", test_complete := "", instrument_id := "",
    interpretation := ESRInterp.normal "12" }

/-- A concrete session used to exercise `session_summary_join`: one
result with sequence `"1"`, a matching patient, and no orders. -/
def witSession : Session :=
  { header := none
    patients := [{ sequence := "1", patient_id := "PID7", patient_name := "DOE",
                   birthdate := "", sex := "", attending_physician := "" }]
    orders := []
    results := [witResult]
    ended := false }

/-- Witness for `session_summary_join` at `witSession`. -/
theorem session_summary_join_witness :
    ∃ row, (clean_create_session_summary witSession).get? 0 = some row ∧
      row.test_number = 0 + 1 ∧
      (∀ p, witSession.patients.find?
          (fun p => decide (p.sequence = witResult.sequence)) = some p →
        row.patient_name = p.patient_name ∧ row.patient_id = p.patient_id) ∧
      ((∀ p ∈ witSession.patients, ¬ p.sequence = witResult.sequence) →
        row.patient_name = "N/A" ∧ row.patient_id = "N/A") ∧
      (∀ o, witSession.orders.find?
          (fun o => decide (o.sequence = witResult.sequence)) = some o →
        row.sample_id = o.sample_id) ∧
      ((∀ o ∈ witSession.orders, ¬ o.sequence = witResult.sequence) →
        row.sample_id = "N/A") :=
  session_summary_join witSession 0 witResult rfl

/-!
## Engine-level theorems over the `src/clean.py` loop
-/

/-- **C8.** A received frame whose checksum does not verify makes the
engine write NAK and continue the receiving loop with the open session
unchanged: running the loop on the bad frame followed by any remaining
chunks equals running it on the remaining chunks with the same session
and one NAK appended to the write log. -/
theorem bad_checksum_nak_session_unchanged (c t : List Nat)
    (rest : List (List Nat)) (s : Session) (w : List Nat) (fin : List Session)
    (hc : c = STXb :: t) (hv : verify_checksum c = false) :
    clean_loop (c :: rest) s w fin = clean_loop rest s (w ++ [NAKb]) fin := by
  subst hc
  have hpf : clean_process_frame (STXb :: t) s = (false, s) := by
    simp [clean_process_frame, hv]
  have hne : ¬ (STXb = EOTb) := by decide
  simp [clean_loop, hne, hpf]

/-- Witness for `bad_checksum_nak_session_unchanged` at a concrete frame
with no ETX (hence no matching checksum). -/
theorem bad_checksum_nak_session_unchanged_witness :
    clean_loop [[2, 49, 10]] initSession [ACKb] [] =
      clean_loop [] initSession ([ACKb] ++ [NAKb]) [] :=
  bad_checksum_nak_session_unchanged [2, 49, 10] [49, 10] [] initSession [ACKb] []
    rfl (by decide)

/-- **C4 (amended, `src/clean.py` side).** When the receiving loop reads
a chunk beginning with EOT it writes ACK, hands off the current session
with its end stamped, and the open session immediately afterwards is the
fresh empty session — so a transmission that started from a fresh session
emits a session holding exactly the entities decoded during it. -/
theorem clean_eot_finalizes (c t : List Nat) (rest : List (List Nat))
    (s : Session) (w : List Nat) (fin : List Session) (hc : c = EOTb :: t) :
    clean_loop (c :: rest) s w fin =
      (w ++ [ACKb], fin ++ [finalizeSession s], initSession) := by
  subst hc
  simp [clean_loop]

/-- Witness for `clean_eot_finalizes`: EOT after a session holding one
result emits that session and leaves a fresh one open. -/
theorem clean_eot_finalizes_witness :
    clean_loop [[4, 10]]
      { header := none, patients := [], orders := [],
        results := [{ sequence := "1", test_id := "^^^ESR", value := "15",
                      units := "mm/h", abnormal_flag := "", status := "",
                      test_start := "", test_complete := "", instrument_id := "",
                      interpretation := ESRInterp.normal "15" }],
        ended := false } [ACKb] [] =
    ([ACKb] ++ [ACKb],
      [] ++ [finalizeSession
        { header := none, patients := [], orders := [],
          results := [{ sequence := "1", test_id := "^^^ESR", value := "15",
                        units := "mm/h", abnormal_flag := "", status := "",
                        test_start := "", test_complete := "", instrument_id := "",
                        interpretation := ESRInterp.normal "15" }],
          ended := false }], initSession) :=
  clean_eot_finalizes [4, 10] [10] []
    { header := none, patients := [], orders := [],
      results := [{ sequence := "1", test_id := "^^^ESR", value := "15",
                    units := "mm/h", abnormal_flag := "", status := "",
                    test_start := "", test_complete := "", instrument_id := "",
                    interpretation := ESRInterp.normal "15" }],
      ended := false } [ACKb] [] rfl

/-- **C2 (code evaluation).** The frame
`STX '1' "R|1" CR ETX "40" CR LF` has a correct checksum, yet the
`src/clean.py` engine answers it with NAK: `_process_result` raises
`IndexError` on the 2-field record, `_process_frame` reports failure, and
`_handle_transmission` writes NAK — an internal decode error surfacing as
a protocol-level NAK for a checksum-valid frame. -/
theorem valid_frame_nak_on_decode_error :
    verify_checksum [2, 49, 82, 124, 49, 13, 3, 52, 48, 13, 10] = true ∧
    clean_handle_transmission [[2, 49, 82, 124, 49, 13, 3, 52, 48, 13, 10]]
      initSession = ([ACKb, NAKb], [], initSession) :=
  ⟨rfl, rfl⟩

/-- **C7 (code evaluation).** Decoding the Result record `"R|1"` — a
record of type `R` with too few fields — fails with `IndexError` in
`iSEDHandler._process_result` instead of degrading to empty-string
defaults. -/
theorem result_record_short_raises :
    clean_process_record "R|1" initSession = Except.error "IndexError" := rfl

/-- **C3 (code evaluation).** Seven consecutive checksum failures for the
same frame number are all answered with NAK (`max_retries = 6` is never
consulted), and the transmission is not abandoned: the subsequent EOT
still finalizes a session. -/
theorem retry_cap_not_enforced :
    (clean_handle_transmission
      [[2, 49, 10], [2, 49, 10], [2, 49, 10], [2, 49, 10], [2, 49, 10],
       [2, 49, 10], [2, 49, 10], [4, 10]] initSession).1.count NAKb = 7 ∧
    max_retries < 7 ∧
    (clean_handle_transmission
      [[2, 49, 10], [2, 49, 10], [2, 49, 10], [2, 49, 10], [2, 49, 10],
       [2, 49, 10], [2, 49, 10], [4, 10]] initSession).2.1 =
      [finalizeSession initSession] :=
  ⟨rfl, by decide, rfl⟩

/-- **C10.** A read timeout (empty chunk) while receiving ends the
transmission without finalizing any session and keeps the already decoded
entities in the open session buffer; the next transmission that reaches
EOT then emits a session still containing those entities, because the
session is reset only at finalization. -/
theorem timeout_keeps_entities (s s' : Session) (t1 t2 : List Nat)
    (c1 c2 : List Nat) (r2 : List (List Nat))
    (h1 : c1 = STXb :: t1) (h2 : clean_process_frame c1 s = (true, s'))
    (h3 : c2 = EOTb :: t2) :
    clean_handle_transmission [c1, []] s = ([ACKb, ACKb], [], s') ∧
    clean_handle_transmission (c2 :: r2) s' =
      ([ACKb, ACKb], [finalizeSession s'], initSession) := by
  constructor
  · subst h1
    have hne : ¬ (STXb = EOTb) := by decide
    simp [clean_handle_transmission, clean_loop, hne, h2]
  · subst h3
    simp [clean_handle_transmission, clean_loop]

/-- Witness for `timeout_keeps_entities`: a valid Patient frame is
decoded, the stream then times out — nothing is finalized and the patient
stays in the open session — and the next transmission's EOT emits a
session containing that patient. -/
theorem timeout_keeps_entities_witness :
    clean_handle_transmission [[2, 49, 80, 124, 49, 13, 3, 51, 69, 13, 10], []]
      initSession =
      ([ACKb, ACKb], [],
        { header := none
          patients := [{ sequence := "1", patient_id := "", patient_name := "",
                         birthdate := "", sex := "", attending_physician := "" }]
          orders := [], results := [], ended := false }) ∧
    clean_handle_transmission [[4, 10]]
      { header := none
        patients := [{ sequence := "1", patient_id := "", patient_name := "",
                       birthdate := "", sex := "", attending_physician := "" }]
        orders := [], results := [], ended := false } =
      ([ACKb, ACKb],
        [finalizeSession
          { header := none
            patients := [{ sequence := "1", patient_id := "", patient_name := "",
                           birthdate := "", sex := "", attending_physician := "" }]
            orders := [], results := [], ended := false }], initSession) :=
  timeout_keeps_entities initSession
    { header := none
      patients := [{ sequence := "1", patient_id := "", patient_name := "",
                     birthdate := "", sex := "", attending_physician := "" }]
      orders := [], results := [], ended := false }
    [49, 80, 124, 49, 13, 3, 51, 69, 13, 10] [10]
    [2, 49, 80, 124, 49, 13, 3, 51, 69, 13, 10] [4, 10] []
    rfl rfl rfl

/-!
## The engine of `src/main.py`

Header, patient and order records are stored as Python dicts of string
keys and string values; they are modelled as association lists in the
key order of the source literals.  The result record additionally holds
the derived interpretation, so it is a structure.
-/

/-- The result dict built by `process_result_record` in `src/main.py`
(without the wall-clock `timestamp`). -/
structure MResult where
  record_type : String
  sequence_number : String
  universal_test_id : String
  result_value : String
  units : String
  reference_range : String
  abnormal_flag : String
  abnormality_nature : String
  result_status : String
  normative_change_date : String
  operator_id : String
  test_start_datetime : String
  test_complete_datetime : String
  instrument_id : String
  interpretation : ESRInterp
deriving DecidableEq, Repr

/-- The module-level `current_session` of `src/main.py` (timestamps
outside the model). -/
structure MSession where
  header : List (String × String)
  patients : List (List (String × String))
  orders : List (List (String × String))
  results : List MResult
deriving DecidableEq, Repr

/-- The freshly reset `current_session` of `src/main.py`. -/
def initMSession : MSession :=
  { header := [], patients := [], orders := [], results := [] }

/-- `process_header_record` of `src/main.py`. -/
def main_process_header_record (record : String) : List (String × String) :=
  let fields := pySplit record '|'
  let sender_info := if fields.length > 4 then pySplit (fieldOr fields 4) '^' else []
  [("record_type", fieldOr fields 0),
   ("delimiter_definition", fieldOr fields 1),
   ("message_control_id", fieldOr fields 2),
   ("access_password", fieldOr fields 3),
   ("manufacturer", partOr sender_info 0),
   ("product_name", partOr sender_info 1),
   ("software_version", partOr sender_info 2),
   ("instrument_id", partOr sender_info 3),
   ("sender_address", fieldOr fields 5),
   ("reserved", fieldOr fields 6),
   ("sender_phone", fieldOr fields 7),
   ("characteristics", fieldOr fields 8),
   ("receiver_id", fieldOr fields 9),
   ("comments", fieldOr fields 10),
   ("processing_id", fieldOr fields 11),
   ("version_number", fieldOr fields 12),
   ("message_datetime", fieldOr fields 13)]

/-- `process_patient_record` of `src/main.py`. -/
def main_process_patient_record (record : String) : List (String × String) :=
  let fields := pySplit record '|'
  [("record_type", fieldOr fields 0),
   ("sequence_number", fieldOr fields 1),
   ("practice_patient_id", fieldOr fields 2),
   ("laboratory_patient_id", fieldOr fields 3),
   ("patient_id_3", fieldOr fields 4),
   ("patient_name", fieldOr fields 5),
   ("mother_maiden_name", fieldOr fields 6),
   ("birthdate", fieldOr fields 7),
   ("patient_sex", fieldOr fields 8),
   ("patient_race", fieldOr fields 9),
   ("patient_address", fieldOr fields 10),
   ("reserved", fieldOr fields 11),
   ("patient_phone", fieldOr fields 12),
   ("attending_physician_id", fieldOr fields 13),
   ("special_field_1", fieldOr fields 14),
   ("special_field_2", fieldOr fields 15),
   ("patient_height", fieldOr fields 16),
   ("patient_weight", fieldOr fields 17),
   ("diagnosis", fieldOr fields 18),
   ("active_medications", fieldOr fields 19),
   ("patient_diet", fieldOr fields 20),
   ("practice_field_1", fieldOr fields 21),
   ("practice_field_2", fieldOr fields 22),
   ("admission_discharge_dates", fieldOr fields 23),
   ("admission_status", fieldOr fields 24),
   ("location", fieldOr fields 25),
   ("diagnostic_code_nature_1", fieldOr fields 26),
   ("diagnostic_code_nature_2", fieldOr fields 27),
   ("patient_religion", fieldOr fields 28),
   ("marital_status", fieldOr fields 29),
   ("isolation_status", fieldOr fields 30),
   ("language", fieldOr fields 31),
   ("hospital_service", fieldOr fields 32),
   ("hospital_institution", fieldOr fields 33),
   ("dosage_category", fieldOr fields 34)]

/-- `process_order_record` of `src/main.py`. -/
def main_process_order_record (record : String) : List (String × String) :=
  let fields := pySplit record '|'
  let sample_info := if fields.length > 2 then pySplit (fieldOr fields 2) '^' else []
  [("record_type", fieldOr fields 0),
   ("sequence_number", fieldOr fields 1),
   ("sample_id", partOr sample_info 0),
   ("rotor_location", partOr sample_info 1),
   ("instrument_specimen_id", fieldOr fields 3),
   ("universal_test_id", fieldOr fields 4),
   ("priority", fieldOr fields 5),
   ("requested_datetime", fieldOr fields 6),
   ("specimen_collection_datetime", fieldOr fields 7),
   ("collection_end_time", fieldOr fields 8),
   ("collection_volume", fieldOr fields 9),
   ("collector_id", fieldOr fields 10),
   ("action_code", fieldOr fields 11),
   ("danger_code", fieldOr fields 12),
   ("clinical_info", fieldOr fields 13),
   ("specimen_received_datetime", fieldOr fields 14),
   ("specimen_descriptor", fieldOr fields 15),
   ("ordering_physician", fieldOr fields 16),
   ("physician_phone", fieldOr fields 17),
   ("user_field_1", fieldOr fields 18),
   ("user_field_2", fieldOr fields 19),
   ("laboratory_field_1", fieldOr fields 20),
   ("laboratory_field_2", fieldOr fields 21),
   ("result_reported_datetime", fieldOr fields 22),
   ("instrument_charge", fieldOr fields 23),
   ("instrument_section_id", fieldOr fields 24),
   ("report_types", fieldOr fields 25),
   ("reserved", fieldOr fields 26),
   ("specimen_location", fieldOr fields 27),
   ("nosocomial_infection_flag", fieldOr fields 28),
   ("specimen_service", fieldOr fields 29),
   ("specimen_institution", fieldOr fields 30)]

/-- `process_result_record` of `src/main.py`: every field access is
length-guarded, and the interpretation uses the (defaulted) value and
abnormal flag — this variant is total. -/
def main_process_result_record (record : String) : MResult :=
  let fields := pySplit record '|'
  { record_type := fieldOr fields 0
    sequence_number := fieldOr fields 1
    universal_test_id := fieldOr fields 2
    result_value := fieldOr fields 3
    units := fieldOr fields 4
    reference_range := fieldOr fields 5
    abnormal_flag := fieldOr fields 6
    abnormality_nature := fieldOr fields 7
    result_status := fieldOr fields 8
    normative_change_date := fieldOr fields 9
    operator_id := fieldOr fields 10
    test_start_datetime := fieldOr fields 11
    test_complete_datetime := fieldOr fields 12
    instrument_id := fieldOr fields 13
    interpretation := interpret_esr_result (fieldOr fields 3) (fieldOr fields 6) }

/-- `save_session_data` of `src/main.py` (called from
`process_terminator_record`): dump the session, emit it, and reset
`current_session`.  The JSON files and the summary written alongside are
external persistence. -/
def main_save_session_data (s : MSession) (fin : List MSession) :
    MSession × List MSession :=
  (initMSession, fin ++ [s])

/-- The record loop of `process_frame` in `src/main.py`: dispatch each
non-empty record on its leading tag; an `L` record finalizes the session
through `save_session_data`.  No branch can raise. -/
def main_records_loop : List String → MSession → List MSession →
    MSession × List MSession
  | [], s, fin => (s, fin)
  | r :: rs, s, fin =>
    match r.data with
    | [] => main_records_loop rs s fin
    | t :: _ =>
      if t = 'H' then
        main_records_loop rs { s with header := main_process_header_record r } fin
      else if t = 'P' then
        main_records_loop rs
          { s with patients := s.patients ++ [main_process_patient_record r] } fin
      else if t = 'O' then
        main_records_loop rs
          { s with orders := s.orders ++ [main_process_order_record r] } fin
      else if t = 'R' then
        main_records_loop rs
          { s with results := s.results ++ [main_process_result_record r] } fin
      else if t = 'L' then
        let r' := main_save_session_data s fin
        main_records_loop rs r'.1 r'.2
      else main_records_loop rs s fin

/-- `process_frame` of `src/main.py`: read the frame number byte
(`frame[1]`), decode the span between frame number and ETX with strict
ASCII, strip one trailing CR, split on CR and process the records.  The
surrounding `try` absorbs the `IndexError`/`UnicodeDecodeError` cases. -/
def main_process_frame (frame : List Nat) (s : MSession) (fin : List MSession) :
    MSession × List MSession :=
  if frame.length < 2 then (s, fin)
  else
    let stx := pyFindInt frame STXb
    let etx := pyFindInt frame ETXb
    let span := pySliceInt frame (stx + 2) etx
    if span.all (· < 128) then
      let data_message := stripOneCR (span.map Char.ofNat)
      let records := (splitChar '\r' data_message).map String.mk
      main_records_loop records s fin
    else (s, fin)

/-- The inner frame loop of `process_ised_data` in `src/main.py`: EOT is
ACKed and the loop exits **without** finalizing; a valid STX frame is
ACKed and then processed; an invalid one is NAKed. -/
def main_loop : List (List Nat) → MSession → List Nat → List MSession →
    List Nat × List MSession × MSession
  | [], s, w, fin => (w, fin, s)
  | c :: rest, s, w, fin =>
    match c with
    | [] => (w, fin, s)
    | b :: _ =>
      if b = EOTb then (w ++ [ACKb], fin, s)
      else if b = STXb then
        if verify_checksum c then
          let r := main_process_frame c s fin
          main_loop rest r.1 (w ++ [ACKb]) r.2
        else main_loop rest s (w ++ [NAKb]) fin
      else main_loop rest s w fin

/-- One ENQ-initiated transmission of `process_ised_data` in
`src/main.py`: ACK the ENQ, then run the frame loop. -/
def main_handle_transmission (chunks : List (List Nat)) (s : MSession) :
    List Nat × List MSession × MSession :=
  main_loop chunks s [ACKb] []

/-- **C4 (counterexample).** In the `src/main.py` engine, a chunk
beginning with EOT is answered with ACK but does **not** finalize the
current session: after a transmission carrying one decoded Result ends
with EOT, no session has been handed off and the open session still
holds that Result — contradicting the claim that EOT finalizes the
session and opens a fresh empty one. -/
theorem main_eot_does_not_finalize :
    main_handle_transmission [[EOTb, LFb]]
      { header := [], patients := [], orders := [],
        results := [main_process_result_record "R|1|^^^ESR|12|mm/h"] } =
    ([ACKb, ACKb], [],
      { header := [], patients := [], orders := [],
        results := [main_process_result_record "R|1|^^^ESR|12|mm/h"] }) := rfl

end ISed
